import Mathlib

/-!
# Verification of the battle-zone 3D rendering core

Shallow embedding, over `ℝ`, of the rendering pipeline of the repository:
the perspective projector `project3D`, the line renderer `draw3DLine`, the
box face generator `getBoxFacesForRendering`, the generic back-face culling
helper `processFaces`, the global depth sort and the face compositor of
`draw3DGame`.

Two iterations of the projector exist in the repository and both are
embedded: the most complete one (`src/unnamed/part_000`, lines 2065–2117,
with an adjusted yaw, a far-distance cull and a negated vertical offset)
and the earlier `src/game.js` one (lines 227–271, plain `-yaw` rotation,
no far cull, non-negated vertical offset).  JavaScript `null` results are
embedded as `Option.none`; JavaScript numbers are embedded as real numbers;
canvas draw calls are embedded as emitted lists of `RenderOp` values.
-/

namespace BattleZone

open Classical

noncomputable section

/-- Camera state (`src/unnamed/part_000`, lines 2028–2037; the same record
shape appears in `src/game.js`).  The single game instance has
`z = 20`, `fov = π/2`, `near = 0.1`, `far = 1000`; `x`, `y`, `yaw` are
overwritten every frame by `updateCamera`. -/
structure Camera where
  x : ℝ
  y : ℝ
  z : ℝ
  yaw : ℝ
  pitch : ℝ
  fov : ℝ
  near : ℝ
  far : ℝ

/-- The constant `FRUSTUM_CULL_DISTANCE = 1000` (`src/unnamed/part_000`, line 1745). -/
def FRUSTUM_CULL_DISTANCE : ℝ := 1000

/-- Modelled from the spec: the canvas element is created by `index.html`,
which is not under `src/`; spec §8 fixes the viewport at 800×600 device
pixels.  Only the numeric value is spec-modelled — every use of the canvas
size below mirrors a `canvas.width` / `canvas.height` read in the source. -/
def canvasWidth : ℝ := 800

/-- Modelled from the spec: viewport height, see `canvasWidth`. -/
def canvasHeight : ℝ := 600

/-- A successfully projected point `{x, y, depth}` (`part_000`,
lines 2112–2116). -/
structure ProjectedPoint where
  x : ℝ
  y : ℝ
  depth : ℝ

/-- The adjusted yaw `-(camera.yaw - Math.PI / 2)` (`part_000`, line 2076). -/
def adjustedYaw (cam : Camera) : ℝ := -(cam.yaw - Real.pi / 2)

/-- Camera-space left/right coordinate: `rotatedX = cx * cosYaw - cy * sinYaw`
(`part_000`, line 2080), where `cx = x - camera.x`, `cy = y - camera.y`. -/
def rotatedX (cam : Camera) (x y : ℝ) : ℝ :=
  (x - cam.x) * Real.cos (adjustedYaw cam) - (y - cam.y) * Real.sin (adjustedYaw cam)

/-- Camera-space forward-depth coordinate:
`rotatedY = cx * sinYaw + cy * cosYaw` (`part_000`, line 2081). -/
def rotatedY (cam : Camera) (x y : ℝ) : ℝ :=
  (x - cam.x) * Real.sin (adjustedYaw cam) + (y - cam.y) * Real.cos (adjustedYaw cam)

/-- The focal length `(canvas.width / 2) / Math.tan(camera.fov / 2)`
(`part_000`, line 2104). -/
def focalLength (cam : Camera) : ℝ :=
  (canvasWidth / 2) / Real.tan (cam.fov / 2)

/-- The projector of `src/unnamed/part_000`, lines 2065–2117.
`none` is the "not visible" sentinel (`null`).  Note the screen-Y formula
negates the camera-relative height `cz = z - camera.z` (line 2110). -/
def project3D (cam : Camera) (x y z : ℝ) : Option ProjectedPoint :=
  let cz := z - cam.z
  let rotX := rotatedX cam x y
  let rotY := rotatedY cam x y
  if rotY ≤ cam.near then none
  else if FRUSTUM_CULL_DISTANCE < rotY then none
  else
    let depth := max rotY cam.near
    some ⟨(rotX / depth) * focalLength cam + canvasWidth / 2,
          (-cz / depth) * focalLength cam + canvasHeight / 2,
          depth⟩

/-- Camera-space left/right coordinate of the `src/game.js` projector
(lines 237–241): rotation by `-camera.yaw` with no `π/2` adjustment. -/
def rotatedX_game (cam : Camera) (x y : ℝ) : ℝ :=
  (x - cam.x) * Real.cos (-cam.yaw) - (y - cam.y) * Real.sin (-cam.yaw)

/-- Camera-space forward-depth coordinate of the `src/game.js` projector. -/
def rotatedY_game (cam : Camera) (x y : ℝ) : ℝ :=
  (x - cam.x) * Real.sin (-cam.yaw) + (y - cam.y) * Real.cos (-cam.yaw)

/-- The projector of `src/game.js`, lines 227–271: near-clip only (no far
cull) and a non-negated vertical offset `cz` in the screen-Y formula. -/
def project3D_game (cam : Camera) (x y z : ℝ) : Option ProjectedPoint :=
  let cz := z - cam.z
  let rotX := rotatedX_game cam x y
  let rotY := rotatedY_game cam x y
  if rotY ≤ cam.near then none
  else
    let depth := max rotY cam.near
    some ⟨(rotX / depth) * focalLength cam + canvasWidth / 2,
          (cz / depth) * focalLength cam + canvasHeight / 2,
          depth⟩

/-- The camera-relative height component with the sign convention the
`part_000` projector feeds into its screen-Y formula: line 2110 negates
`cz = z - camera.z` because screen Y grows downward. -/
def verticalOffset (cam : Camera) (z : ℝ) : ℝ := -(z - cam.z)

/-- A world-space point `[x, y, z]` as used in the vertex arrays of
`getBoxFacesForRendering` and `processFaces`. -/
structure Vec3 where
  x : ℝ
  y : ℝ
  z : ℝ

/-- The 8 box corner vertices of `getBoxFacesForRendering`
(`part_000`, lines 2170–2180): `x1 = x - width/2`, `x2 = x + width/2`,
`y1 = y - depth/2`, `y2 = y + depth/2`, `z1 = z`, `z2 = z + height`. -/
def boxVertices (x y z width height depth : ℝ) : List Vec3 :=
  [⟨x - width/2, y - depth/2, z⟩, ⟨x + width/2, y - depth/2, z⟩,
   ⟨x + width/2, y + depth/2, z⟩, ⟨x - width/2, y + depth/2, z⟩,
   ⟨x - width/2, y - depth/2, z + height⟩, ⟨x + width/2, y - depth/2, z + height⟩,
   ⟨x + width/2, y + depth/2, z + height⟩, ⟨x - width/2, y + depth/2, z + height⟩]

/-- A face definition: vertex indices into the vertex buffer of a shape plus
boundary edge index pairs (`part_000`, lines 2182–2189). -/
structure FaceDef where
  indices : List ℕ
  edges : List (ℕ × ℕ)

/-- Front box face `{ indices: [0, 1, 5, 4], ... }` (`part_000`, line 2183). -/
def boxFaceFront : FaceDef := ⟨[0, 1, 5, 4], [(0,1), (1,5), (5,4), (4,0)]⟩

/-- Right box face (`part_000`, line 2184). -/
def boxFaceRight : FaceDef := ⟨[1, 2, 6, 5], [(1,2), (2,6), (6,5), (5,1)]⟩

/-- Back box face (`part_000`, line 2185). -/
def boxFaceBack : FaceDef := ⟨[2, 3, 7, 6], [(2,3), (3,7), (7,6), (6,2)]⟩

/-- Left box face (`part_000`, line 2186). -/
def boxFaceLeft : FaceDef := ⟨[3, 0, 4, 7], [(3,0), (0,4), (4,7), (7,3)]⟩

/-- Top box face (`part_000`, line 2187). -/
def boxFaceTop : FaceDef := ⟨[4, 5, 6, 7], [(4,5), (5,6), (6,7), (7,4)]⟩

/-- Bottom box face (`part_000`, line 2188). -/
def boxFaceBottom : FaceDef := ⟨[3, 2, 1, 0], [(3,2), (2,1), (1,0), (0,3)]⟩

/-- The `faceDefinitions` array of `getBoxFacesForRendering`
(`part_000`, lines 2182–2189): front, right, back, left, top, bottom. -/
def boxFaceDefs : List FaceDef :=
  [boxFaceFront, boxFaceRight, boxFaceBack, boxFaceLeft, boxFaceTop, boxFaceBottom]

/-- The selection `faceDef.indices.map(i => vertices[i])` (`part_000`, line 2196). -/
def faceVerticesOf (vertices : List Vec3) (fd : FaceDef) : List Vec3 :=
  fd.indices.map fun i => vertices.getD i ⟨0, 0, 0⟩

/-- Face normal: cross product of the two edge vectors spanned by the
first three vertices of the face (`part_000`, lines 2202–2213). -/
def faceNormal (fvs : List Vec3) : Vec3 :=
  let v0 := fvs.getD 0 ⟨0, 0, 0⟩
  let v1 := fvs.getD 1 ⟨0, 0, 0⟩
  let v2 := fvs.getD 2 ⟨0, 0, 0⟩
  let e1x := v1.x - v0.x
  let e1y := v1.y - v0.y
  let e1z := v1.z - v0.z
  let e2x := v2.x - v0.x
  let e2y := v2.y - v0.y
  let e2z := v2.z - v0.z
  ⟨e1y * e2z - e1z * e2y, e1z * e2x - e1x * e2z, e1x * e2y - e1y * e2x⟩

/-- Face centroid of `getBoxFacesForRendering`: component sums divided by
the hard-coded `4` (`part_000`, lines 2197–2199). -/
def boxFaceCenter (fvs : List Vec3) : Vec3 :=
  ⟨(fvs.map Vec3.x).sum / 4, (fvs.map Vec3.y).sum / 4, (fvs.map Vec3.z).sum / 4⟩

/-- Face centroid of `processFaces`: component sums divided by
`faceVertices.length` (`part_000`, lines 2369–2371). -/
def faceCenter (fvs : List Vec3) : Vec3 :=
  ⟨(fvs.map Vec3.x).sum / fvs.length, (fvs.map Vec3.y).sum / fvs.length,
   (fvs.map Vec3.z).sum / fvs.length⟩

/-- Back-face test value of `getBoxFacesForRendering`: dot product of the
face normal with `toCamera = camera − centroid` (`part_000`,
lines 2216–2219). -/
def faceDotBox (cam : Camera) (vertices : List Vec3) (fd : FaceDef) : ℝ :=
  let fvs := faceVerticesOf vertices fd
  let c := boxFaceCenter fvs
  let n := faceNormal fvs
  n.x * (cam.x - c.x) + n.y * (cam.y - c.y) + n.z * (cam.z - c.z)

/-- Back-face test value of `processFaces` (`part_000`, lines 2388–2391);
identical to `faceDotBox` except for the centroid divisor. -/
def faceDot (cam : Camera) (vertices : List Vec3) (fd : FaceDef) : ℝ :=
  let fvs := faceVerticesOf vertices fd
  let c := faceCenter fvs
  let n := faceNormal fvs
  n.x * (cam.x - c.x) + n.y * (cam.y - c.y) + n.z * (cam.z - c.z)

/-- Centroid-to-camera Euclidean distance of a kept box face
(`part_000`, lines 2223–2226). -/
def faceDistanceBox (cam : Camera) (vertices : List Vec3) (fd : FaceDef) : ℝ :=
  let c := boxFaceCenter (faceVerticesOf vertices fd)
  Real.sqrt ((c.x - cam.x) * (c.x - cam.x) + (c.y - cam.y) * (c.y - cam.y) +
    (c.z - cam.z) * (c.z - cam.z))

/-- Centroid-to-camera Euclidean distance of a kept `processFaces` face
(`part_000`, lines 2395–2398). -/
def faceDistance (cam : Camera) (vertices : List Vec3) (fd : FaceDef) : ℝ :=
  let c := faceCenter (faceVerticesOf vertices fd)
  Real.sqrt ((c.x - cam.x) * (c.x - cam.x) + (c.y - cam.y) * (c.y - cam.y) +
    (c.z - cam.z) * (c.z - cam.z))

/-- A collected face ready for the global depth sort (`part_000`,
lines 2228–2233 and 2400–2405): camera distance, the per-vertex
projections selected by the face indices, the edge list and the world-space
vertex buffer of the shape. -/
structure Face where
  distance : ℝ
  projectedVertices : List (Option ProjectedPoint)
  edges : List (ℕ × ℕ)
  vertices : List Vec3

/-- The face record pushed by `getBoxFacesForRendering`
(`part_000`, lines 2228–2233).  `projectedVertices` selects from
`vertices.map(v => project3D(...))` (line 2191). -/
def mkBoxFace (cam : Camera) (vertices : List Vec3) (fd : FaceDef) : Face :=
  ⟨faceDistanceBox cam vertices fd,
   fd.indices.map fun i => (vertices.map fun v => project3D cam v.x v.y v.z).getD i none,
   fd.edges, vertices⟩

/-- The face record pushed by `processFaces` (`part_000`, lines 2400–2405). -/
def mkProcessedFace (cam : Camera) (vertices : List Vec3) (fd : FaceDef) : Face :=
  ⟨faceDistance cam vertices fd,
   fd.indices.map fun i => (vertices.map fun v => project3D cam v.x v.y v.z).getD i none,
   fd.edges, vertices⟩

/-- The face-collection loop of `getBoxFacesForRendering`
(`part_000`, lines 2194–2235): a face is pushed exactly when its
back-face dot product is strictly positive. -/
def collectBoxFaces (cam : Camera) (vertices : List Vec3) : List FaceDef → List Face
  | [] => []
  | fd :: rest =>
    if 0 < faceDotBox cam vertices fd then
      mkBoxFace cam vertices fd :: collectBoxFaces cam vertices rest
    else
      collectBoxFaces cam vertices rest

/-- The function `getBoxFacesForRendering` (`part_000`, lines 2169–2238). -/
def getBoxFacesForRendering (cam : Camera) (x y z width height depth : ℝ) : List Face :=
  collectBoxFaces cam (boxVertices x y z width height depth) boxFaceDefs

/-- The function `processFaces` (`part_000`, lines 2363–2410): the same loop as
`collectBoxFaces` but with the length-based centroid divisor. -/
def processFaces (cam : Camera) (vertices : List Vec3) : List FaceDef → List Face
  | [] => []
  | fd :: rest =>
    if 0 < faceDot cam vertices fd then
      mkProcessedFace cam vertices fd :: processFaces cam vertices rest
    else
      processFaces cam vertices rest

/-- The local constant `margin = 50` of `draw3DLine` (`part_000`, line 2142). -/
def lineMargin : ℝ := 50

/-- The screen-space cull condition of `draw3DLine` (`part_000`,
lines 2143–2146): both projected endpoints beyond the same viewport edge
by more than the margin. -/
def offscreenSameSide (p1 p2 : ProjectedPoint) : Prop :=
  (p1.x < -lineMargin ∧ p2.x < -lineMargin) ∨
  (canvasWidth + lineMargin < p1.x ∧ canvasWidth + lineMargin < p2.x) ∨
  (p1.y < -lineMargin ∧ p2.y < -lineMargin) ∨
  (canvasHeight + lineMargin < p1.y ∧ canvasHeight + lineMargin < p2.y)

/-- The function `draw3DLine` (`part_000`, lines 2131–2157).  `none` models the
`return false` paths, on which no stroke is issued; `some (p1, p2)` models
the single stroke call with the two projected endpoints followed by
`return true`. -/
def draw3DLine (cam : Camera) (x1 y1 z1 x2 y2 z2 : ℝ) :
    Option (ProjectedPoint × ProjectedPoint) :=
  match project3D cam x1 y1 z1, project3D cam x2 y2 z2 with
  | some p1, some p2 => if offscreenSameSide p1 p2 then none else some (p1, p2)
  | _, _ => none

/-- A drawing-backend call emitted by the compositor: either a filled
polygon (the `ctx.fill()` of `draw3DGame`, lines 3663–3670) or a stroked
wireframe line (the `draw3DLine` calls of lines 3675–3679). -/
inductive RenderOp where
  | fill (pts : List (ℝ × ℝ))
  | strokeLine (p1 p2 : ProjectedPoint)

/-- The per-face compositor body of `draw3DGame` (`part_000`,
lines 3660–3681): if every projected vertex of the face is non-null, fill
the projected polygon and stroke each edge through `draw3DLine`
(which may itself drop an edge); otherwise emit nothing. -/
def renderFace (cam : Camera) (f : Face) : List RenderOp :=
  if f.projectedVertices.all Option.isSome then
    RenderOp.fill (f.projectedVertices.map fun v =>
      ((v.getD ⟨0, 0, 0⟩).x, (v.getD ⟨0, 0, 0⟩).y)) ::
    f.edges.filterMap fun e =>
      (draw3DLine cam
        (f.vertices.getD e.1 ⟨0, 0, 0⟩).x (f.vertices.getD e.1 ⟨0, 0, 0⟩).y
        (f.vertices.getD e.1 ⟨0, 0, 0⟩).z (f.vertices.getD e.2 ⟨0, 0, 0⟩).x
        (f.vertices.getD e.2 ⟨0, 0, 0⟩).y (f.vertices.getD e.2 ⟨0, 0, 0⟩).z).map
        fun pq => RenderOp.strokeLine pq.1 pq.2
  else []

/-- The global depth sort of `draw3DGame`, line 3657:
`allFaces.sort((a, b) => b.distance - a.distance)`.  The JavaScript
comparison sort puts `a` before `b` exactly when the comparator is
non-positive, i.e. when `b.distance ≤ a.distance`; it is modelled by a
standard comparison sort (merge sort) with that ordering. -/
def sortFacesByDistance (faces : List Face) : List Face :=
  faces.mergeSort fun f g => decide (g.distance ≤ f.distance)

/-- Steps 4–5 of `draw3DGame` (`part_000`, lines 3656–3681): sort all
collected faces far-to-near, then composite each in order. -/
def drawSortedFaces (cam : Camera) (faces : List Face) : List RenderOp :=
  (sortFacesByDistance faces).flatMap (renderFace cam)

/-- A camera used to instantiate universally quantified theorems on concrete
inputs: the game camera configuration with the player turned to
`yaw = π/2`, which makes `adjustedYaw = 0` and the camera-space axes align
with the world axes. -/
def camW : Camera :=
  ⟨0, 0, 20, Real.pi / 2, 0, Real.pi / 2, 0.1, 1000⟩

/-- The game camera exactly as configured in the source
(`part_000`, lines 2028–2037) with the player at the origin facing
`yaw = 0`: position `(0, 0, 20)`, fov 90°, near `0.1`, far `1000`. -/
def gameCam : Camera := ⟨0, 0, 20, 0, 0, Real.pi / 2, 0.1, 1000⟩

/-- The game camera after rotating the yaw by 180°. -/
def gameCamBack : Camera := ⟨0, 0, 20, Real.pi, 0, Real.pi / 2, 0.1, 1000⟩

/-- A face whose single projected vertex is the "not visible" sentinel;
used to instantiate the compositor invariant. -/
def testFace : Face := ⟨0, [none], [], []⟩

end

/-! ## Helper lemmas -/

theorem adjustedYaw_camW : adjustedYaw camW = 0 := by
  simp [adjustedYaw, camW]

theorem rotatedY_camW (x y : ℝ) : rotatedY camW x y = y := by
  simp only [rotatedY, adjustedYaw_camW, Real.sin_zero, Real.cos_zero]
  simp [camW]

theorem rotatedX_camW (x y : ℝ) : rotatedX camW x y = x := by
  simp only [rotatedX, adjustedYaw_camW, Real.sin_zero, Real.cos_zero]
  simp [camW]

theorem rotatedY_gameCam (x y : ℝ) : rotatedY_game gameCam x y = y := by
  simp [rotatedY_game, gameCam]

theorem rotatedY_gameCamBack (x y : ℝ) : rotatedY_game gameCamBack x y = -y := by
  simp [rotatedY_game, gameCamBack, Real.cos_pi, Real.sin_pi]

theorem project3D_none_of_near (cam : Camera) (x y z : ℝ)
    (h : rotatedY cam x y ≤ cam.near) : project3D cam x y z = none := by
  simp only [project3D]
  rw [if_pos h]

theorem project3D_game_isSome_of (cam : Camera) (x y z : ℝ)
    (h : cam.near < rotatedY_game cam x y) :
    (project3D_game cam x y z).isSome = true := by
  simp only [project3D_game]
  rw [if_neg (not_le.mpr h)]
  rfl

theorem project3D_game_none_of (cam : Camera) (x y z : ℝ)
    (h : rotatedY_game cam x y ≤ cam.near) :
    project3D_game cam x y z = none := by
  simp only [project3D_game]
  rw [if_pos h]

/-! ## C4 — projector clip rejection -/

/-- C4: for every camera and world point, if the camera-space forward depth
`rotatedY` is at most the near-plane distance then `project3D` returns the
"not visible" sentinel `none`; and if the forward depth is strictly greater
than the far distance `FRUSTUM_CULL_DISTANCE` (the value of the game
far plane of the game camera) then `project3D` also returns `none`. -/
theorem project3D_clip_rejection (cam : Camera) (x y z : ℝ) :
    (rotatedY cam x y ≤ cam.near → project3D cam x y z = none) ∧
    (FRUSTUM_CULL_DISTANCE < rotatedY cam x y → project3D cam x y z = none) := by
  refine ⟨fun h => ?_, fun h => ?_⟩
  · simp only [project3D]
    rw [if_pos h]
  · simp only [project3D]
    by_cases hn : rotatedY cam x y ≤ cam.near
    · rw [if_pos hn]
    · rw [if_neg hn, if_pos h]

/-- Witness for C4: with the game camera turned to `yaw = π/2`, the world
origin lies at forward depth `0 ≤ near` and is rejected, and the point
`(0, 2000, 0)` lies at forward depth `2000 > 1000` and is rejected. -/
theorem project3D_clip_rejection_witness :
    (rotatedY camW 0 0 ≤ camW.near ∧ project3D camW 0 0 0 = none) ∧
    (FRUSTUM_CULL_DISTANCE < rotatedY camW 0 2000 ∧
      project3D camW 0 2000 0 = none) := by
  have h1 : rotatedY camW 0 0 ≤ camW.near := by
    rw [rotatedY_camW]; simp [camW]; norm_num
  have h2 : FRUSTUM_CULL_DISTANCE < rotatedY camW 0 2000 := by
    rw [rotatedY_camW]; simp [FRUSTUM_CULL_DISTANCE]; norm_num
  exact ⟨⟨h1, (project3D_clip_rejection camW 0 0 0).1 h1⟩,
         ⟨h2, (project3D_clip_rejection camW 0 2000 0).2 h2⟩⟩

/-! ## C7 — monotone projected depth -/

/-- C7: two world points with the same camera-space lateral coordinate and
the same camera-relative height, both strictly between the near and far
planes in forward depth, both project successfully, and the farther one is
assigned a strictly greater projected `depth` value. -/
theorem project3D_depth_monotone (cam : Camera) (x₁ y₁ z₁ x₂ y₂ z₂ : ℝ)
    (hlat : rotatedX cam x₁ y₁ = rotatedX cam x₂ y₂)
    (hvert : z₁ - cam.z = z₂ - cam.z)
    (h1n : cam.near < rotatedY cam x₁ y₁)
    (h1f : rotatedY cam x₁ y₁ < FRUSTUM_CULL_DISTANCE)
    (h2n : cam.near < rotatedY cam x₂ y₂)
    (h2f : rotatedY cam x₂ y₂ < FRUSTUM_CULL_DISTANCE)
    (hlt : rotatedY cam x₁ y₁ < rotatedY cam x₂ y₂) :
    ∃ p₁ p₂, project3D cam x₁ y₁ z₁ = some p₁ ∧
      project3D cam x₂ y₂ z₂ = some p₂ ∧ p₁.depth < p₂.depth := by
  refine ⟨⟨(rotatedX cam x₁ y₁ / max (rotatedY cam x₁ y₁) cam.near) * focalLength cam
        + canvasWidth / 2,
      (-(z₁ - cam.z) / max (rotatedY cam x₁ y₁) cam.near) * focalLength cam
        + canvasHeight / 2,
      max (rotatedY cam x₁ y₁) cam.near⟩,
    ⟨(rotatedX cam x₂ y₂ / max (rotatedY cam x₂ y₂) cam.near) * focalLength cam
        + canvasWidth / 2,
      (-(z₂ - cam.z) / max (rotatedY cam x₂ y₂) cam.near) * focalLength cam
        + canvasHeight / 2,
      max (rotatedY cam x₂ y₂) cam.near⟩, ?_, ?_, ?_⟩
  · simp only [project3D, if_neg (not_le.mpr h1n), if_neg (not_lt.mpr h1f.le)]
  · simp only [project3D, if_neg (not_le.mpr h2n), if_neg (not_lt.mpr h2f.le)]
  · show max (rotatedY cam x₁ y₁) cam.near < max (rotatedY cam x₂ y₂) cam.near
    rw [max_eq_left h1n.le, max_eq_left h2n.le]
    exact hlt

/-- Witness for C7: with the game camera turned to `yaw = π/2`, the points
`(0, 5, 0)` and `(0, 7, 0)` share lateral coordinate `0` and height `0`,
have forward depths `5 < 7` within the clip range, and the farther one gets
the strictly larger projected depth. -/
theorem project3D_depth_monotone_witness :
    rotatedX camW 0 5 = rotatedX camW 0 7 ∧
    (0 : ℝ) - camW.z = (0 : ℝ) - camW.z ∧
    camW.near < rotatedY camW 0 5 ∧
    rotatedY camW 0 5 < FRUSTUM_CULL_DISTANCE ∧
    camW.near < rotatedY camW 0 7 ∧
    rotatedY camW 0 7 < FRUSTUM_CULL_DISTANCE ∧
    rotatedY camW 0 5 < rotatedY camW 0 7 ∧
    (∃ p₁ p₂, project3D camW 0 5 0 = some p₁ ∧
      project3D camW 0 7 0 = some p₂ ∧ p₁.depth < p₂.depth) := by
  have hlat : rotatedX camW 0 5 = rotatedX camW 0 7 := by
    rw [rotatedX_camW, rotatedX_camW]
  have h1n : camW.near < rotatedY camW 0 5 := by
    rw [rotatedY_camW]; simp [camW]; norm_num
  have h1f : rotatedY camW 0 5 < FRUSTUM_CULL_DISTANCE := by
    rw [rotatedY_camW]; simp [FRUSTUM_CULL_DISTANCE]; norm_num
  have h2n : camW.near < rotatedY camW 0 7 := by
    rw [rotatedY_camW]; simp [camW]; norm_num
  have h2f : rotatedY camW 0 7 < FRUSTUM_CULL_DISTANCE := by
    rw [rotatedY_camW]; simp [FRUSTUM_CULL_DISTANCE]; norm_num
  have hlt : rotatedY camW 0 5 < rotatedY camW 0 7 := by
    rw [rotatedY_camW, rotatedY_camW]; norm_num
  exact ⟨hlat, rfl, h1n, h1f, h2n, h2f, hlt,
    project3D_depth_monotone camW 0 5 0 0 7 0 hlat rfl h1n h1f h2n h2f hlt⟩

/-! ## C1 — relative-position preservation at equal depth -/

/-- C1: for two world points whose camera-space forward depths are equal and
strictly between the near and far planes, both projections succeed and the
screen-coordinate differences are the camera-space lateral (respectively
vertical-offset) differences divided by the common depth and multiplied by
`focalLength = (canvasWidth / 2) / tan(fov / 2)`. -/
theorem project3D_equal_depth_delta (cam : Camera) (x₁ y₁ z₁ x₂ y₂ z₂ : ℝ)
    (hdep : rotatedY cam x₁ y₁ = rotatedY cam x₂ y₂)
    (hn : cam.near < rotatedY cam x₁ y₁)
    (hf : rotatedY cam x₁ y₁ < FRUSTUM_CULL_DISTANCE) :
    ∃ p₁ p₂, project3D cam x₁ y₁ z₁ = some p₁ ∧
      project3D cam x₂ y₂ z₂ = some p₂ ∧
      p₁.x - p₂.x =
        ((rotatedX cam x₁ y₁ - rotatedX cam x₂ y₂) / rotatedY cam x₁ y₁) *
          focalLength cam ∧
      p₁.y - p₂.y =
        ((verticalOffset cam z₁ - verticalOffset cam z₂) / rotatedY cam x₁ y₁) *
          focalLength cam := by
  have h2n : cam.near < rotatedY cam x₂ y₂ := hdep ▸ hn
  have h2f : rotatedY cam x₂ y₂ < FRUSTUM_CULL_DISTANCE := hdep ▸ hf
  refine ⟨⟨(rotatedX cam x₁ y₁ / max (rotatedY cam x₁ y₁) cam.near) * focalLength cam
        + canvasWidth / 2,
      (-(z₁ - cam.z) / max (rotatedY cam x₁ y₁) cam.near) * focalLength cam
        + canvasHeight / 2,
      max (rotatedY cam x₁ y₁) cam.near⟩,
    ⟨(rotatedX cam x₂ y₂ / max (rotatedY cam x₂ y₂) cam.near) * focalLength cam
        + canvasWidth / 2,
      (-(z₂ - cam.z) / max (rotatedY cam x₂ y₂) cam.near) * focalLength cam
        + canvasHeight / 2,
      max (rotatedY cam x₂ y₂) cam.near⟩, ?_, ?_, ?_, ?_⟩
  · simp only [project3D, if_neg (not_le.mpr hn), if_neg (not_lt.mpr hf.le)]
  · simp only [project3D, if_neg (not_le.mpr h2n), if_neg (not_lt.mpr h2f.le)]
  · show (rotatedX cam x₁ y₁ / max (rotatedY cam x₁ y₁) cam.near) * focalLength cam
        + canvasWidth / 2
      - ((rotatedX cam x₂ y₂ / max (rotatedY cam x₂ y₂) cam.near) * focalLength cam
        + canvasWidth / 2) = _
    rw [max_eq_left hn.le, max_eq_left h2n.le, ← hdep]
    ring
  · show (-(z₁ - cam.z) / max (rotatedY cam x₁ y₁) cam.near) * focalLength cam
        + canvasHeight / 2
      - ((-(z₂ - cam.z) / max (rotatedY cam x₂ y₂) cam.near) * focalLength cam
        + canvasHeight / 2) = _
    rw [max_eq_left hn.le, max_eq_left h2n.le, ← hdep]
    simp only [verticalOffset]
    ring

/-- Witness for C1: with the game camera turned to `yaw = π/2`, the points
`(1, 5, 0)` and `(3, 5, 7)` share the forward depth `5`, which lies strictly
between the near and far planes. -/
theorem project3D_equal_depth_delta_witness :
    rotatedY camW 1 5 = rotatedY camW 3 5 ∧
    camW.near < rotatedY camW 1 5 ∧
    rotatedY camW 1 5 < FRUSTUM_CULL_DISTANCE ∧
    (∃ p₁ p₂, project3D camW 1 5 0 = some p₁ ∧
      project3D camW 3 5 7 = some p₂ ∧
      p₁.x - p₂.x =
        ((rotatedX camW 1 5 - rotatedX camW 3 5) / rotatedY camW 1 5) *
          focalLength camW ∧
      p₁.y - p₂.y =
        ((verticalOffset camW 0 - verticalOffset camW 7) / rotatedY camW 1 5) *
          focalLength camW) := by
  have hdep : rotatedY camW 1 5 = rotatedY camW 3 5 := by
    rw [rotatedY_camW, rotatedY_camW]
  have hn : camW.near < rotatedY camW 1 5 := by
    rw [rotatedY_camW]; simp [camW]; norm_num
  have hf : rotatedY camW 1 5 < FRUSTUM_CULL_DISTANCE := by
    rw [rotatedY_camW]; simp [FRUSTUM_CULL_DISTANCE]; norm_num
  exact ⟨hdep, hn, hf,
    project3D_equal_depth_delta camW 1 5 0 3 5 7 hdep hn hf⟩

/-! ## C9 — end-to-end scenario -/

/-- C9: with the camera at `(0, 0, 20)`, yaw 0, fov 90°, a box centered at
`(0, 50, 0)` sized 40×40×40 projects every one of its 8 corner vertices
(in particular the 4 front-face vertices) to an on-screen point under the
`game.js` projector, so all 6 faces pass the per-vertex clip check; after
rotating the camera yaw by 180° every vertex of the same box projects to
the "not visible" sentinel because it fails the near-plane test. -/
theorem endToEnd_box_scenario :
    (∀ v ∈ boxVertices 0 50 0 40 40 40,
      (project3D_game gameCam v.x v.y v.z).isSome = true) ∧
    (∀ v ∈ boxVertices 0 50 0 40 40 40,
      project3D_game gameCamBack v.x v.y v.z = none) := by
  constructor <;>
    · intro v hv
      simp only [boxVertices, List.mem_cons, List.not_mem_nil, or_false] at hv
      rcases hv with rfl | rfl | rfl | rfl | rfl | rfl | rfl | rfl
      all_goals
        first
        | (apply project3D_game_isSome_of
           rw [rotatedY_gameCam]
           simp only [gameCam]
           norm_num)
        | (apply project3D_game_none_of
           rw [rotatedY_gameCamBack]
           simp only [gameCamBack]
           norm_num)

/-- Witness for C9: the front-left bottom corner `(-20, 30, 0)` of the box
is a member of the vertex list; it projects on-screen for the forward
camera and to the sentinel for the reversed camera. -/
theorem endToEnd_box_scenario_witness :
    (⟨-20, 30, 0⟩ : Vec3) ∈ boxVertices 0 50 0 40 40 40 ∧
    (project3D_game gameCam (-20) 30 0).isSome = true ∧
    project3D_game gameCamBack (-20) 30 0 = none := by
  have hv : (⟨-20, 30, 0⟩ : Vec3) ∈ boxVertices 0 50 0 40 40 40 := by
    simp only [boxVertices, List.mem_cons]
    left
    norm_num
  exact ⟨hv, endToEnd_box_scenario.1 _ hv, endToEnd_box_scenario.2 _ hv⟩

/-! ## Box face geometry: explicit forms of the back-face dot products -/

theorem fvBoxFront (x y z w h d : ℝ) :
    faceVerticesOf (boxVertices x y z w h d) boxFaceFront =
      [⟨x - w/2, y - d/2, z⟩, ⟨x + w/2, y - d/2, z⟩,
       ⟨x + w/2, y - d/2, z + h⟩, ⟨x - w/2, y - d/2, z + h⟩] := rfl

theorem fvBoxRight (x y z w h d : ℝ) :
    faceVerticesOf (boxVertices x y z w h d) boxFaceRight =
      [⟨x + w/2, y - d/2, z⟩, ⟨x + w/2, y + d/2, z⟩,
       ⟨x + w/2, y + d/2, z + h⟩, ⟨x + w/2, y - d/2, z + h⟩] := rfl

theorem fvBoxBack (x y z w h d : ℝ) :
    faceVerticesOf (boxVertices x y z w h d) boxFaceBack =
      [⟨x + w/2, y + d/2, z⟩, ⟨x - w/2, y + d/2, z⟩,
       ⟨x - w/2, y + d/2, z + h⟩, ⟨x + w/2, y + d/2, z + h⟩] := rfl

theorem fvBoxLeft (x y z w h d : ℝ) :
    faceVerticesOf (boxVertices x y z w h d) boxFaceLeft =
      [⟨x - w/2, y + d/2, z⟩, ⟨x - w/2, y - d/2, z⟩,
       ⟨x - w/2, y - d/2, z + h⟩, ⟨x - w/2, y + d/2, z + h⟩] := rfl

theorem fvBoxTop (x y z w h d : ℝ) :
    faceVerticesOf (boxVertices x y z w h d) boxFaceTop =
      [⟨x - w/2, y - d/2, z + h⟩, ⟨x + w/2, y - d/2, z + h⟩,
       ⟨x + w/2, y + d/2, z + h⟩, ⟨x - w/2, y + d/2, z + h⟩] := rfl

theorem fvBoxBottom (x y z w h d : ℝ) :
    faceVerticesOf (boxVertices x y z w h d) boxFaceBottom =
      [⟨x - w/2, y + d/2, z⟩, ⟨x + w/2, y + d/2, z⟩,
       ⟨x + w/2, y - d/2, z⟩, ⟨x - w/2, y - d/2, z⟩] := rfl

theorem faceDotBox_front (cam : Camera) (x y z w h d : ℝ) :
    faceDotBox cam (boxVertices x y z w h d) boxFaceFront =
      w * h * ((y - d/2) - cam.y) := by
  simp only [faceDotBox, fvBoxFront, boxFaceCenter, faceNormal, List.map_cons, List.map_nil,
    List.sum_cons, List.sum_nil, List.getD_cons_zero, List.getD_cons_succ]
  ring

theorem faceDotBox_right (cam : Camera) (x y z w h d : ℝ) :
    faceDotBox cam (boxVertices x y z w h d) boxFaceRight =
      d * h * (cam.x - (x + w/2)) := by
  simp only [faceDotBox, fvBoxRight, boxFaceCenter, faceNormal, List.map_cons, List.map_nil,
    List.sum_cons, List.sum_nil, List.getD_cons_zero, List.getD_cons_succ]
  ring

theorem faceDotBox_back (cam : Camera) (x y z w h d : ℝ) :
    faceDotBox cam (boxVertices x y z w h d) boxFaceBack =
      w * h * (cam.y - (y + d/2)) := by
  simp only [faceDotBox, fvBoxBack, boxFaceCenter, faceNormal, List.map_cons, List.map_nil,
    List.sum_cons, List.sum_nil, List.getD_cons_zero, List.getD_cons_succ]
  ring

theorem faceDotBox_left (cam : Camera) (x y z w h d : ℝ) :
    faceDotBox cam (boxVertices x y z w h d) boxFaceLeft =
      d * h * ((x - w/2) - cam.x) := by
  simp only [faceDotBox, fvBoxLeft, boxFaceCenter, faceNormal, List.map_cons, List.map_nil,
    List.sum_cons, List.sum_nil, List.getD_cons_zero, List.getD_cons_succ]
  ring

theorem faceDotBox_top (cam : Camera) (x y z w h d : ℝ) :
    faceDotBox cam (boxVertices x y z w h d) boxFaceTop =
      w * d * (cam.z - (z + h)) := by
  simp only [faceDotBox, fvBoxTop, boxFaceCenter, faceNormal, List.map_cons, List.map_nil,
    List.sum_cons, List.sum_nil, List.getD_cons_zero, List.getD_cons_succ]
  ring

theorem faceDotBox_bottom (cam : Camera) (x y z w h d : ℝ) :
    faceDotBox cam (boxVertices x y z w h d) boxFaceBottom =
      w * d * (z - cam.z) := by
  simp only [faceDotBox, fvBoxBottom, boxFaceCenter, faceNormal, List.map_cons, List.map_nil,
    List.sum_cons, List.sum_nil, List.getD_cons_zero, List.getD_cons_succ]
  ring

theorem collectBoxFaces_eq_filter (cam : Camera) (vs : List Vec3) (defs : List FaceDef) :
    collectBoxFaces cam vs defs =
      (defs.filter fun fd => decide (0 < faceDotBox cam vs fd)).map (mkBoxFace cam vs) := by
  induction defs with
  | nil => rfl
  | cons fd rest ih =>
    by_cases h : 0 < faceDotBox cam vs fd <;>
      simp [collectBoxFaces, List.filter_cons, h, ih]

theorem getBoxFaces_length (cam : Camera) (x y z w h d : ℝ) :
    (getBoxFacesForRendering cam x y z w h d).length =
      ((boxFaceDefs.filter fun fd =>
        decide (0 < faceDotBox cam (boxVertices x y z w h d) fd)).length) := by
  rw [getBoxFacesForRendering, collectBoxFaces_eq_filter, List.length_map]

/-! ## C6 — back-face test condition -/

/-- C6: the visibility filter `processFaces` keeps exactly the face
definitions whose normal (cross product of the two edge vectors of the
first three face vertices) has a strictly positive dot product with the
view vector (camera minus centroid); a dot product of exactly 0 falls in
the discarded branch of the strict comparison. -/
theorem processFaces_keeps_iff_dot_pos (cam : Camera) (vs : List Vec3)
    (defs : List FaceDef) :
    processFaces cam vs defs =
      (defs.filter fun fd => decide (0 < faceDot cam vs fd)).map
        (mkProcessedFace cam vs) := by
  induction defs with
  | nil => rfl
  | cons fd rest ih =>
    by_cases h : 0 < faceDot cam vs fd <;>
      simp [processFaces, List.filter_cons, h, ih]

/-! ## C10 — opposite box faces are mutually exclusive -/

/-- C10: for every camera and every box with non-negative dimensions, the
back-face test of `getBoxFacesForRendering` can never accept both faces of
an opposite pair (front/back, right/left, top/bottom), and consequently
the returned face list has at most 3 of the 6 faces. -/
theorem box_opposite_faces_exclusive (cam : Camera) (x y z w h d : ℝ)
    (hw : 0 ≤ w) (hh : 0 ≤ h) (hd : 0 ≤ d) :
    ¬(0 < faceDotBox cam (boxVertices x y z w h d) boxFaceFront ∧
      0 < faceDotBox cam (boxVertices x y z w h d) boxFaceBack) ∧
    ¬(0 < faceDotBox cam (boxVertices x y z w h d) boxFaceRight ∧
      0 < faceDotBox cam (boxVertices x y z w h d) boxFaceLeft) ∧
    ¬(0 < faceDotBox cam (boxVertices x y z w h d) boxFaceTop ∧
      0 < faceDotBox cam (boxVertices x y z w h d) boxFaceBottom) ∧
    (getBoxFacesForRendering cam x y z w h d).length ≤ 3 := by
  have E1 : ¬(0 < faceDotBox cam (boxVertices x y z w h d) boxFaceFront ∧
      0 < faceDotBox cam (boxVertices x y z w h d) boxFaceBack) := by
    rintro ⟨h1, h2⟩
    rw [faceDotBox_front] at h1
    rw [faceDotBox_back] at h2
    nlinarith [mul_nonneg (mul_nonneg hw hh) hd]
  have E2 : ¬(0 < faceDotBox cam (boxVertices x y z w h d) boxFaceRight ∧
      0 < faceDotBox cam (boxVertices x y z w h d) boxFaceLeft) := by
    rintro ⟨h1, h2⟩
    rw [faceDotBox_right] at h1
    rw [faceDotBox_left] at h2
    nlinarith [mul_nonneg (mul_nonneg hd hh) hw]
  have E3 : ¬(0 < faceDotBox cam (boxVertices x y z w h d) boxFaceTop ∧
      0 < faceDotBox cam (boxVertices x y z w h d) boxFaceBottom) := by
    rintro ⟨h1, h2⟩
    rw [faceDotBox_top] at h1
    rw [faceDotBox_bottom] at h2
    nlinarith [mul_nonneg (mul_nonneg hw hd) hh]
  refine ⟨E1, E2, E3, ?_⟩
  rw [getBoxFaces_length]
  simp only [boxFaceDefs, List.filter_cons, List.filter_nil, decide_eq_true_eq]
  split_ifs <;> simp_all

/-- Witness for C10: the unit game camera and a 40×40×40 box at the
origin. -/
theorem box_opposite_faces_exclusive_witness :
    ((0:ℝ) ≤ 40) ∧
    (¬(0 < faceDotBox camW (boxVertices 0 0 0 40 40 40) boxFaceFront ∧
       0 < faceDotBox camW (boxVertices 0 0 0 40 40 40) boxFaceBack) ∧
     ¬(0 < faceDotBox camW (boxVertices 0 0 0 40 40 40) boxFaceRight ∧
       0 < faceDotBox camW (boxVertices 0 0 0 40 40 40) boxFaceLeft) ∧
     ¬(0 < faceDotBox camW (boxVertices 0 0 0 40 40 40) boxFaceTop ∧
       0 < faceDotBox camW (boxVertices 0 0 0 40 40 40) boxFaceBottom) ∧
     (getBoxFacesForRendering camW 0 0 0 40 40 40).length ≤ 3) :=
  ⟨by norm_num,
   box_opposite_faces_exclusive camW 0 0 0 40 40 40
     (by norm_num) (by norm_num) (by norm_num)⟩

/-! ## C5 — cube culling count -/

/-- Counterexample to C5 as stated: the camera at `(100, 0, 0)` is strictly
outside the 40×40×40 cube centered at the origin (its `x` exceeds the
half-side 20), yet only 1 of the 6 faces — not 3 — survives the back-face
test, because the camera is face-on to the right face and inside the
y- and z-slabs of the cube. -/
theorem cube_culling_count_cex :
    (20 : ℝ) < |(100 : ℝ)| ∧
    (getBoxFacesForRendering ⟨100, 0, 0, 0, 0, Real.pi/2, 0.1, 1000⟩
      0 0 (-20) 40 40 40).length = 1 ∧
    (getBoxFacesForRendering ⟨100, 0, 0, 0, 0, Real.pi/2, 0.1, 1000⟩
      0 0 (-20) 40 40 40).length ≠ 3 := by
  have h1 : (getBoxFacesForRendering ⟨100, 0, 0, 0, 0, Real.pi/2, 0.1, 1000⟩
      0 0 (-20) 40 40 40).length = 1 := by
    rw [getBoxFaces_length]
    norm_num [boxFaceDefs, List.filter_cons, List.filter_nil,
      faceDotBox_front, faceDotBox_right, faceDotBox_back, faceDotBox_left,
      faceDotBox_top, faceDotBox_bottom]
  refine ⟨?_, h1, by rw [h1]; norm_num⟩
  rw [abs_of_pos (by norm_num : (0:ℝ) < 100)]
  norm_num

set_option maxHeartbeats 1000000 in
/-- C5, amended: for a cube of positive side `s` centered at the origin and
a camera strictly outside it, between 1 and 3 of the 6 faces survive the
back-face test; exactly 3 survive when the camera lies strictly outside
the extent of the cube along all three coordinate axes (the original
"exactly 3 for any outside position" fails face-on, see the
counterexample). -/
theorem cube_culling_count (s a b c yaw pitch fov near far : ℝ) (hs : 0 < s)
    (hout : s/2 < |a| ∨ s/2 < |b| ∨ s/2 < |c|) :
    1 ≤ (getBoxFacesForRendering ⟨a, b, c, yaw, pitch, fov, near, far⟩
        0 0 (-(s/2)) s s s).length ∧
    (getBoxFacesForRendering ⟨a, b, c, yaw, pitch, fov, near, far⟩
        0 0 (-(s/2)) s s s).length ≤ 3 ∧
    (s/2 < |a| ∧ s/2 < |b| ∧ s/2 < |c| →
      (getBoxFacesForRendering ⟨a, b, c, yaw, pitch, fov, near, far⟩
        0 0 (-(s/2)) s s s).length = 3) := by
  have hss : (0:ℝ) < s * s := mul_pos hs hs
  have i1 : (0 < faceDotBox ⟨a, b, c, yaw, pitch, fov, near, far⟩
      (boxVertices 0 0 (-(s/2)) s s s) boxFaceFront) ↔ b < -(s/2) := by
    rw [faceDotBox_front]
    constructor <;> intro hcond <;> nlinarith
  have i2 : (0 < faceDotBox ⟨a, b, c, yaw, pitch, fov, near, far⟩
      (boxVertices 0 0 (-(s/2)) s s s) boxFaceRight) ↔ s/2 < a := by
    rw [faceDotBox_right]
    constructor <;> intro hcond <;> nlinarith
  have i3 : (0 < faceDotBox ⟨a, b, c, yaw, pitch, fov, near, far⟩
      (boxVertices 0 0 (-(s/2)) s s s) boxFaceBack) ↔ s/2 < b := by
    rw [faceDotBox_back]
    constructor <;> intro hcond <;> nlinarith
  have i4 : (0 < faceDotBox ⟨a, b, c, yaw, pitch, fov, near, far⟩
      (boxVertices 0 0 (-(s/2)) s s s) boxFaceLeft) ↔ a < -(s/2) := by
    rw [faceDotBox_left]
    constructor <;> intro hcond <;> nlinarith
  have i5 : (0 < faceDotBox ⟨a, b, c, yaw, pitch, fov, near, far⟩
      (boxVertices 0 0 (-(s/2)) s s s) boxFaceTop) ↔ s/2 < c := by
    rw [faceDotBox_top]
    constructor <;> intro hcond <;> nlinarith
  have i6 : (0 < faceDotBox ⟨a, b, c, yaw, pitch, fov, near, far⟩
      (boxVertices 0 0 (-(s/2)) s s s) boxFaceBottom) ↔ c < -(s/2) := by
    rw [faceDotBox_bottom]
    constructor <;> intro hcond <;> nlinarith
  have key : (getBoxFacesForRendering ⟨a, b, c, yaw, pitch, fov, near, far⟩
      0 0 (-(s/2)) s s s).length =
      (if b < -(s/2) then 1 else 0) + ((if s/2 < a then 1 else 0) +
      ((if s/2 < b then 1 else 0) + ((if a < -(s/2) then 1 else 0) +
      ((if s/2 < c then 1 else 0) + (if c < -(s/2) then 1 else 0))))) := by
    rw [getBoxFaces_length]
    simp only [boxFaceDefs, List.filter_cons, List.filter_nil, decide_eq_true_eq,
      i1, i2, i3, i4, i5, i6]
    split_ifs <;> rfl
  refine ⟨?_, ?_, ?_⟩
  · rw [key]
    clear key i1 i2 i3 i4 i5 i6 hss
    rcases hout with hx | hx | hx
    · rcases lt_abs.mp hx with hside | hside <;>
      · have h1 : 1 ≤ ((if s/2 < a then 1 else 0) : ℕ) + (if a < -(s/2) then 1 else 0) := by
          split_ifs <;> first | omega | (exfalso; linarith)
        omega
    · rcases lt_abs.mp hx with hside | hside <;>
      · have h1 : 1 ≤ ((if b < -(s/2) then 1 else 0) : ℕ) + (if s/2 < b then 1 else 0) := by
          split_ifs <;> first | omega | (exfalso; linarith)
        omega
    · rcases lt_abs.mp hx with hside | hside <;>
      · have h1 : 1 ≤ ((if s/2 < c then 1 else 0) : ℕ) + (if c < -(s/2) then 1 else 0) := by
          split_ifs <;> first | omega | (exfalso; linarith)
        omega
  · rw [key]
    clear key i1 i2 i3 i4 i5 i6 hss
    have pa : ((if s/2 < a then 1 else 0) : ℕ) + (if a < -(s/2) then 1 else 0) ≤ 1 := by
      split_ifs <;> first | omega | (exfalso; linarith)
    have pb : ((if b < -(s/2) then 1 else 0) : ℕ) + (if s/2 < b then 1 else 0) ≤ 1 := by
      clear pa
      split_ifs <;> first | omega | (exfalso; linarith)
    have pc : ((if s/2 < c then 1 else 0) : ℕ) + (if c < -(s/2) then 1 else 0) ≤ 1 := by
      clear pa pb
      split_ifs <;> first | omega | (exfalso; linarith)
    omega
  · rintro ⟨ha, hb, hc⟩
    rw [key]
    clear key i1 i2 i3 i4 i5 i6 hss
    rcases lt_abs.mp ha with ha' | ha' <;> rcases lt_abs.mp hb with hb' | hb' <;>
      rcases lt_abs.mp hc with hc' | hc' <;>
      · have na : ((if s/2 < a then 1 else 0) : ℕ) + (if a < -(s/2) then 1 else 0) = 1 := by
          split_ifs <;> first | rfl | (exfalso; linarith)
        have nb : ((if b < -(s/2) then 1 else 0) : ℕ) + (if s/2 < b then 1 else 0) = 1 := by
          clear na
          split_ifs <;> first | rfl | (exfalso; linarith)
        have nc : ((if s/2 < c then 1 else 0) : ℕ) + (if c < -(s/2) then 1 else 0) = 1 := by
          clear na nb
          split_ifs <;> first | rfl | (exfalso; linarith)
        omega

/-- Witness for C5 (amended): side 40, camera `(100, 0, 0)` — strictly
outside through its x-coordinate. -/
theorem cube_culling_count_witness :
    (0:ℝ) < 40 ∧
    ((40:ℝ)/2 < |(100:ℝ)| ∨ (40:ℝ)/2 < |(0:ℝ)| ∨ (40:ℝ)/2 < |(0:ℝ)|) ∧
    (1 ≤ (getBoxFacesForRendering ⟨100, 0, 0, 0, 0, Real.pi/2, 0.1, 1000⟩
        0 0 (-(40/2)) 40 40 40).length ∧
     (getBoxFacesForRendering ⟨100, 0, 0, 0, 0, Real.pi/2, 0.1, 1000⟩
        0 0 (-(40/2)) 40 40 40).length ≤ 3 ∧
     ((40:ℝ)/2 < |(100:ℝ)| ∧ (40:ℝ)/2 < |(0:ℝ)| ∧ (40:ℝ)/2 < |(0:ℝ)| →
       (getBoxFacesForRendering ⟨100, 0, 0, 0, 0, Real.pi/2, 0.1, 1000⟩
        0 0 (-(40/2)) 40 40 40).length = 3)) := by
  have habs : |(100:ℝ)| = 100 := abs_of_pos (by norm_num)
  have hout : (40:ℝ)/2 < |(100:ℝ)| ∨ (40:ℝ)/2 < |(0:ℝ)| ∨ (40:ℝ)/2 < |(0:ℝ)| := by
    left; rw [habs]; norm_num
  exact ⟨by norm_num, hout,
    cube_culling_count 40 100 0 0 0 0 (Real.pi/2) 0.1 1000 (by norm_num) hout⟩

/-! ## C2 — global depth sort -/

/-- C2: for every list of collected faces, the global depth sort of
`draw3DGame` produces a list that is monotonically non-increasing in the
stored camera `distance` from first to last, and is a permutation of the
input (the sort is a total, terminating function, so in particular it
cannot crash or loop on equal distances). -/
theorem sortFaces_sorted (faces : List Face) :
    List.Pairwise (fun f g : Face => g.distance ≤ f.distance)
      (sortFacesByDistance faces) ∧
    List.Perm (sortFacesByDistance faces) faces := by
  constructor
  · have htrans : ∀ a b c : Face,
        decide (b.distance ≤ a.distance) = true →
        decide (c.distance ≤ b.distance) = true →
        decide (c.distance ≤ a.distance) = true := by
      intro a b c hab hbc
      rw [decide_eq_true_eq] at hab hbc ⊢
      exact le_trans hbc hab
    have htotal : ∀ a b : Face,
        (decide (b.distance ≤ a.distance) || decide (a.distance ≤ b.distance)) = true := by
      intro a b
      rcases le_total b.distance a.distance with hle | hle <;> simp [hle]
    have hp := @List.sorted_mergeSort Face
      (fun f g : Face => decide (g.distance ≤ f.distance)) htrans htotal faces
    exact hp.imp fun hab => of_decide_eq_true hab
  · exact List.mergeSort_perm faces _

/-! ## C3 — compositor clip invariant -/

/-- C3: for every face of the sorted face list, if any of its per-vertex
projections is the "not visible" sentinel, the compositor emits no fill
and no stroke for it (no partial-polygon clipping); and whenever anything
is emitted for a face, every one of its vertex projections succeeded. -/
theorem renderFace_all_or_nothing (cam : Camera) (faces : List Face) (f : Face)
    (hf : f ∈ sortFacesByDistance faces) :
    ((∃ v ∈ f.projectedVertices, v = none) → renderFace cam f = []) ∧
    (renderFace cam f ≠ [] → ∀ v ∈ f.projectedVertices, v.isSome = true) := by
  constructor
  · rintro ⟨v, hv, rfl⟩
    have hall : f.projectedVertices.all Option.isSome = false := by
      rw [List.all_eq_false]
      exact ⟨none, hv, by simp⟩
    simp [renderFace, hall]
  · intro hne v hv
    by_contra hns
    have hall : f.projectedVertices.all Option.isSome = false := by
      rw [List.all_eq_false]
      exact ⟨v, hv, by simpa using hns⟩
    exact hne (by simp [renderFace, hall])

/-- Witness for C3: a face whose only projected vertex is the sentinel is a
member of the sorted singleton list and produces no drawing operation. -/
theorem renderFace_all_or_nothing_witness :
    testFace ∈ sortFacesByDistance [testFace] ∧
    (∃ v ∈ testFace.projectedVertices, v = none) ∧
    renderFace camW testFace = [] := by
  have hf : testFace ∈ sortFacesByDistance [testFace] := by
    simp [sortFacesByDistance]
  have hex : ∃ v ∈ testFace.projectedVertices, v = none :=
    ⟨none, by simp [testFace], rfl⟩
  exact ⟨hf, hex, (renderFace_all_or_nothing camW [testFace] testFace hf).1 hex⟩

/-! ## C8 — screen-space segment culling -/

/-- C8: if either endpoint of a 3D segment projects to the "not visible"
sentinel, or both projected endpoints lie beyond the same viewport edge by
more than the margin, then `draw3DLine` emits no stroke (it returns the
`none` that models `return false`).  The hypothesis states exactly that
disjunction: whenever both projections succeed, they are off-screen on a
common side. -/
theorem draw3DLine_culled (cam : Camera) (x1 y1 z1 x2 y2 z2 : ℝ)
    (h : ∀ p1 p2, project3D cam x1 y1 z1 = some p1 →
      project3D cam x2 y2 z2 = some p2 → offscreenSameSide p1 p2) :
    draw3DLine cam x1 y1 z1 x2 y2 z2 = none := by
  unfold draw3DLine
  cases hp1 : project3D cam x1 y1 z1 with
  | none => rfl
  | some p1 =>
    cases hp2 : project3D cam x2 y2 z2 with
    | none => rfl
    | some p2 => exact if_pos (h p1 p2 hp1 hp2)

/-- Witness for C8: the segment from the world origin (behind the eye, so
its projection is the sentinel) to `(0, 5, 0)` is never stroked. -/
theorem draw3DLine_culled_witness :
    project3D camW 0 0 0 = none ∧ draw3DLine camW 0 0 0 0 5 0 = none := by
  have h0 : project3D camW 0 0 0 = none :=
    project3D_none_of_near camW 0 0 0
      (by rw [rotatedY_camW]; simp [camW]; norm_num)
  refine ⟨h0, draw3DLine_culled camW 0 0 0 0 5 0 ?_⟩
  intro p1 p2 hp1 hp2
  rw [h0] at hp1
  exact absurd hp1 (by simp)

end BattleZone
